import Mathlib

/-!
Verification of the bt-led-controller configuration header
(`src/bt-led-controller/device_config.h`) and of the settings-persistence /
configuration-session engine specified on top of it.

The header defines only the protocol vocabulary (constants, opcodes, error
codes) and the fixed-layout `DeviceSettings` record.  Those are embedded
directly from the source.  The command dispatcher, `SettingsStore`,
`SessionGuard` and `ConfigSession` state machine are not part of the supplied
source; where a claim depends on them, the corresponding definition is
modelled from the specification and says so in its doc comment.
-/

/-! ## Constants from device_config.h -/

/-- `#define MAX_BRIGHTNESS 255` -/
def MAX_BRIGHTNESS : Nat := 255

/-- `#define DEFAULT_BRIGHTNESS 128` -/
def DEFAULT_BRIGHTNESS : Nat := 128

/-- `#define MAX_EFFECTS 10` -/
def MAX_EFFECTS : Nat := 10

/-- `#define SETTINGS_VERSION 1` -/
def SETTINGS_VERSION : Nat := 1

/-- `#define SETTINGS_MAGIC 0x4C454447` ("LEDG") -/
def SETTINGS_MAGIC : Nat := 0x4C454447

/-- `#define MAX_USER_ID_LENGTH 64` -/
def MAX_USER_ID_LENGTH : Nat := 64

/-- LED pattern identifiers, `PATTERN_OFF .. PATTERN_STROBE`. -/
def PATTERN_OFF : Nat := 0

def PATTERN_SOLID_WHITE : Nat := 1

def PATTERN_RAINBOW : Nat := 2

def PATTERN_PULSE : Nat := 3

def PATTERN_FADE : Nat := 4

def PATTERN_CHASE : Nat := 5

def PATTERN_TWINKLE : Nat := 6

def PATTERN_WAVE : Nat := 7

def PATTERN_BREATH : Nat := 8

def PATTERN_STROBE : Nat := 9

/-! ASCII-letter opcodes for routine operations. -/

/-- `#define CMD_VERSION 'V'` -/
def CMD_VERSION : Nat := Char.toNat 'V'

/-- `#define CMD_SET_LED 'S'` -/
def CMD_SET_LED : Nat := Char.toNat 'S'

/-- `#define CMD_CLEAR 'C'` -/
def CMD_CLEAR : Nat := Char.toNat 'C'

/-- `#define CMD_BRIGHTNESS 'B'` -/
def CMD_BRIGHTNESS : Nat := Char.toNat 'B'

/-- `#define CMD_PATTERN 'P'` -/
def CMD_PATTERN : Nat := Char.toNat 'P'

/-- `#define CMD_INFO 'I'` -/
def CMD_INFO : Nat := Char.toNat 'I'

/-- `#define CMD_SETTINGS_GET 'G'` -/
def CMD_SETTINGS_GET : Nat := Char.toNat 'G'

/-- `#define CMD_SETTINGS_SET 'T'` -/
def CMD_SETTINGS_SET : Nat := Char.toNat 'T'

/-- `#define CMD_SETTINGS_SAVE 'A'` -/
def CMD_SETTINGS_SAVE : Nat := Char.toNat 'A'

/-- `#define CMD_SETTINGS_LOAD 'L'` -/
def CMD_SETTINGS_LOAD : Nat := Char.toNat 'L'

/-- `#define CMD_SETTINGS_RESET 'R'` -/
def CMD_SETTINGS_RESET : Nat := Char.toNat 'R'

/-- `#define CMD_ERROR 'E'` -/
def CMD_ERROR : Nat := Char.toNat 'E'

/-- `#define CMD_SUCCESS 'K'` -/
def CMD_SUCCESS : Nat := Char.toNat 'K'

/-- `#define CMD_POWER_GET 'W'` -/
def CMD_POWER_GET : Nat := Char.toNat 'W'

/-- `#define CMD_EFFECTS_GET 'F'` -/
def CMD_EFFECTS_GET : Nat := Char.toNat 'F'

/-! Numeric (binary) config-mode opcodes. -/

/-- `#define CMD_STATUS 0x00` -/
def CMD_STATUS : Nat := 0x00

/-- `#define CMD_CONFIG_UPDATE 0x02` -/
def CMD_CONFIG_UPDATE : Nat := 0x02

/-- `#define CMD_ENTER_CONFIG 0x10` -/
def CMD_ENTER_CONFIG : Nat := 0x10

/-- `#define CMD_COMMIT_CONFIG 0x11` -/
def CMD_COMMIT_CONFIG : Nat := 0x11

/-- `#define CMD_EXIT_CONFIG 0x12` -/
def CMD_EXIT_CONFIG : Nat := 0x12

/-- `#define CMD_CLAIM_DEVICE 0x13` -/
def CMD_CLAIM_DEVICE : Nat := 0x13

/-- `#define CMD_VERIFY_OWNERSHIP 0x14` -/
def CMD_VERIFY_OWNERSHIP : Nat := 0x14

/-- `#define CMD_UNCLAIM_DEVICE 0x15` -/
def CMD_UNCLAIM_DEVICE : Nat := 0x15

/-- `#define CMD_REQUEST_ANALYTICS 0x20` -/
def CMD_REQUEST_ANALYTICS : Nat := 0x20

/-- `#define CMD_CONFIRM_ANALYTICS 0x21` -/
def CMD_CONFIRM_ANALYTICS : Nat := 0x21

/-! Message types. -/

/-- `#define MSG_TYPE_COMMAND 0x01` -/
def MSG_TYPE_COMMAND : Nat := 0x01

/-- `#define MSG_TYPE_RESPONSE 0x02` -/
def MSG_TYPE_RESPONSE : Nat := 0x02

/-- `#define MSG_TYPE_ERROR 0x03` -/
def MSG_TYPE_ERROR : Nat := 0x03

/-- `#define MSG_TYPE_SETTINGS 0x04` -/
def MSG_TYPE_SETTINGS : Nat := 0x04

/-- `#define MSG_TYPE_STATUS 0x05` -/
def MSG_TYPE_STATUS : Nat := 0x05

/-! Error codes. -/

/-- `#define ERROR_NONE 0x00` -/
def ERROR_NONE : Nat := 0x00

/-- `#define ERROR_INVALID_COMMAND 0x01` -/
def ERROR_INVALID_COMMAND : Nat := 0x01

/-- `#define ERROR_INVALID_PARAMETER 0x02` -/
def ERROR_INVALID_PARAMETER : Nat := 0x02

/-- `#define ERROR_OUT_OF_RANGE 0x03` -/
def ERROR_OUT_OF_RANGE : Nat := 0x03

/-- `#define ERROR_NOT_IN_CONFIG_MODE 0x04` -/
def ERROR_NOT_IN_CONFIG_MODE : Nat := 0x04

/-- `#define ERROR_ALREADY_IN_CONFIG_MODE 0x05` -/
def ERROR_ALREADY_IN_CONFIG_MODE : Nat := 0x05

/-- `#define ERROR_FLASH_WRITE_FAILED 0x06` -/
def ERROR_FLASH_WRITE_FAILED : Nat := 0x06

/-- `#define ERROR_VALIDATION_FAILED 0x07` -/
def ERROR_VALIDATION_FAILED : Nat := 0x07

/-- `#define ERROR_NOT_OWNER 0x08` -/
def ERROR_NOT_OWNER : Nat := 0x08

/-- `#define ERROR_ALREADY_CLAIMED 0x09` -/
def ERROR_ALREADY_CLAIMED : Nat := 0x09

/-- `#define ERROR_SETTINGS_CORRUPT 0x10` -/
def ERROR_SETTINGS_CORRUPT : Nat := 0x10

/-- `#define ERROR_FLASH_FAILURE 0x11` -/
def ERROR_FLASH_FAILURE : Nat := 0x11

/-- `#define ERROR_LED_FAILURE 0x12` -/
def ERROR_LED_FAILURE : Nat := 0x12

/-- `#define ERROR_MEMORY_LOW 0x13` -/
def ERROR_MEMORY_LOW : Nat := 0x13

/-- `#define ERROR_POWER_LOW 0x14` -/
def ERROR_POWER_LOW : Nat := 0x14

/-! Response codes. -/

/-- `#define RESPONSE_ACK_CONFIG_MODE 0x90` -/
def RESPONSE_ACK_CONFIG_MODE : Nat := 0x90

/-- `#define RESPONSE_ACK_COMMIT 0x91` -/
def RESPONSE_ACK_COMMIT : Nat := 0x91

/-- `#define RESPONSE_ACK_SUCCESS 0x92` -/
def RESPONSE_ACK_SUCCESS : Nat := 0x92

/-- `#define RESPONSE_ANALYTICS_BATCH 0xA0` -/
def RESPONSE_ANALYTICS_BATCH : Nat := 0xA0

/-- The fifteen error codes, in the order the header declares them. -/
def errorCodes : List Nat :=
  [ERROR_NONE, ERROR_INVALID_COMMAND, ERROR_INVALID_PARAMETER, ERROR_OUT_OF_RANGE,
   ERROR_NOT_IN_CONFIG_MODE, ERROR_ALREADY_IN_CONFIG_MODE, ERROR_FLASH_WRITE_FAILED,
   ERROR_VALIDATION_FAILED, ERROR_NOT_OWNER, ERROR_ALREADY_CLAIMED,
   ERROR_SETTINGS_CORRUPT, ERROR_FLASH_FAILURE, ERROR_LED_FAILURE,
   ERROR_MEMORY_LOW, ERROR_POWER_LOW]

/-- The ten numeric opcodes of the configuration/ownership/analytics protocol,
in declaration order. -/
def configOpcodes : List Nat :=
  [CMD_STATUS, CMD_CONFIG_UPDATE, CMD_ENTER_CONFIG, CMD_COMMIT_CONFIG,
   CMD_EXIT_CONFIG, CMD_CLAIM_DEVICE, CMD_VERIFY_OWNERSHIP, CMD_UNCLAIM_DEVICE,
   CMD_REQUEST_ANALYTICS, CMD_CONFIRM_ANALYTICS]

/-- The ASCII-letter opcodes of the routine-operation family, in declaration
order. -/
def asciiOpcodes : List Nat :=
  [CMD_VERSION, CMD_SET_LED, CMD_CLEAR, CMD_BRIGHTNESS, CMD_PATTERN, CMD_INFO,
   CMD_SETTINGS_GET, CMD_SETTINGS_SET, CMD_SETTINGS_SAVE, CMD_SETTINGS_LOAD,
   CMD_SETTINGS_RESET, CMD_ERROR, CMD_SUCCESS, CMD_POWER_GET, CMD_EFFECTS_GET]

/-- C7: the error-code space is exactly the fifteen single-byte codes the spec
lists, in that order (the list of values in declaration order is strictly
increasing, hence pairwise distinct), running from `ERROR_NONE = 0x00` to
`ERROR_POWER_LOW = 0x14`, and each value fits in one byte. -/
theorem errorCodes_complete_distinct_byte :
    errorCodes.length = 15 ∧ errorCodes.Nodup ∧
    List.Pairwise (fun a b => a < b) errorCodes ∧
    (∀ e ∈ errorCodes, e < 256) ∧
    ERROR_NONE = 0x00 ∧ ERROR_POWER_LOW = 0x14 := by
  decide

/-- C8: each of the ten numeric opcodes lies in `0x00–0x21`, the ten are
pairwise distinct, and none equals any ASCII-letter opcode of the
routine-operation family. -/
theorem configOpcodes_range_distinct_disjoint :
    configOpcodes.length = 10 ∧ configOpcodes.Nodup ∧
    (∀ c ∈ configOpcodes, c ≤ 0x21) ∧
    (∀ c ∈ configOpcodes, ∀ a ∈ asciiOpcodes, c ≠ a) := by
  decide

/-- C9: the error-code byte values collide with the other constant namespaces:
`ERROR_SETTINGS_CORRUPT`, `ERROR_FLASH_FAILURE` and `ERROR_LED_FAILURE` equal
the opcodes `CMD_ENTER_CONFIG`, `CMD_COMMIT_CONFIG` and `CMD_EXIT_CONFIG`, and
error codes `0x01–0x05` equal the five message-type values, so an error byte is
distinguishable from an opcode or message type only by position. -/
theorem errorCodes_collide_with_opcodes_and_msgTypes :
    ERROR_SETTINGS_CORRUPT = CMD_ENTER_CONFIG ∧
    ERROR_FLASH_FAILURE = CMD_COMMIT_CONFIG ∧
    ERROR_LED_FAILURE = CMD_EXIT_CONFIG ∧
    ERROR_INVALID_COMMAND = MSG_TYPE_COMMAND ∧
    ERROR_INVALID_PARAMETER = MSG_TYPE_RESPONSE ∧
    ERROR_OUT_OF_RANGE = MSG_TYPE_ERROR ∧
    ERROR_NOT_IN_CONFIG_MODE = MSG_TYPE_SETTINGS ∧
    ERROR_ALREADY_IN_CONFIG_MODE = MSG_TYPE_STATUS := by
  decide

/-! ## The DeviceSettings record (struct DeviceSettings, device_config.h lines 134-148)

Fields appear in the declared order.  Multi-byte fields are modelled as `Nat`
with explicit reduction mod 2^8 / 2^32 where the byte layout is concerned;
the fixed-size arrays `color[3]`, `ownerUserId[MAX_USER_ID_LENGTH + 1]` and
`reserved[14]` are byte lists.  `ownerUserId` holds the string value
(null-terminated semantics: the stored bytes up to the terminator); the
serialization pads it to the declared 65-byte array. -/

structure DeviceSettings where
  magic : Nat
  version : Nat
  brightness : Nat
  currentPattern : Nat
  powerMode : Nat
  autoOff : Nat
  maxEffects : Nat
  color : List Nat
  speed : Nat
  ownerUserId : List Nat
  hasOwner : Bool
  reserved : List Nat
  checksum : Nat
  deriving DecidableEq, Repr

/-- Little-endian byte decomposition of a 32-bit value. -/
def le32 (n : Nat) : List Nat :=
  [n % 256, n / 256 % 256, n / 256 / 256 % 256, n / 256 / 256 / 256 % 256]

/-- Pad a byte list with zero bytes up to length `n` (null-terminated
fixed-size char array semantics). -/
def padTo (n : Nat) (l : List Nat) : List Nat :=
  l ++ List.replicate (n - l.length) 0

/-- Well-formedness of a record with respect to the declared struct layout:
the fixed arrays have their declared sizes, the string fits the 64-character
bound, and single-byte fields hold byte values. -/
def DeviceSettings.wellFormed (r : DeviceSettings) : Prop :=
  r.color.length = 3 ∧ r.reserved.length = 14 ∧
  r.ownerUserId.length ≤ MAX_USER_ID_LENGTH ∧
  r.version < 256 ∧ r.brightness < 256 ∧ r.currentPattern < 256 ∧
  r.powerMode < 256 ∧ r.autoOff < 256 ∧ r.maxEffects < 256 ∧ r.speed < 256

instance (r : DeviceSettings) : Decidable r.wellFormed := by
  unfold DeviceSettings.wellFormed
  infer_instance

/-- The bytes of every field that precedes `checksum` in the declared layout,
in declaration order: `magic`, `version`, `brightness`, `currentPattern`,
`powerMode`, `autoOff`, `maxEffects`, `color[3]`, `speed`,
`ownerUserId[65]`, `hasOwner`, `reserved[14]`. -/
def DeviceSettings.bytesBeforeChecksum (r : DeviceSettings) : List Nat :=
  le32 r.magic ++
  [r.version, r.brightness, r.currentPattern, r.powerMode, r.autoOff,
   r.maxEffects] ++
  r.color ++ [r.speed] ++
  padTo (MAX_USER_ID_LENGTH + 1) r.ownerUserId ++
  [if r.hasOwner then 1 else 0] ++
  r.reserved

/-- Full serialization of the record: the checksum field is declared last, so
it is appended after every other field's bytes. -/
def DeviceSettings.serialize (r : DeviceSettings) : List Nat :=
  r.bytesBeforeChecksum ++ le32 r.checksum

/-- Byte offset of the `checksum` field in the serialized layout:
4 (magic) + 6 (single-byte fields) + 3 (color) + 1 (speed) + 65 (ownerUserId)
+ 1 (hasOwner) + 14 (reserved) = 94. -/
def checksumOffset : Nat := 94

/-- Modelled from the spec: the checksum algorithm is not in the supplied
source ("any deterministic function over the byte layout excluding the
checksum field itself (e.g., additive or CRC-style)"); modelled as the
additive sum of the bytes, reduced to the 32-bit `checksum` field width. -/
def settingsChecksum (bytes : List Nat) : Nat :=
  bytes.sum % 2 ^ 32

/-- Modelled from the spec: record validity is not in the supplied source
("a record is valid iff magic matches the expected sentinel, version is a
supported value, and checksum matches a recomputation over the record
contents"). -/
def DeviceSettings.isValid (r : DeviceSettings) : Bool :=
  r.magic == SETTINGS_MAGIC && r.version == SETTINGS_VERSION &&
  r.checksum == settingsChecksum r.bytesBeforeChecksum

theorem bytesBeforeChecksum_length {r : DeviceSettings} (h : r.wellFormed) :
    r.bytesBeforeChecksum.length = checksumOffset := by
  obtain ⟨hc, hr, ho, -⟩ := h
  have ho64 : r.ownerUserId.length ≤ 64 := ho
  simp [DeviceSettings.bytesBeforeChecksum, le32, padTo, hc, hr,
    checksumOffset, MAX_USER_ID_LENGTH]
  omega

/-- C1: for a well-formed record, the serialized layout places the `checksum`
field last (bytes from offset 94 on are exactly its four bytes) with every
other field, reserved padding included, among the bytes preceding it; and the
record is valid iff `magic = SETTINGS_MAGIC`, `version = SETTINGS_VERSION`,
and `checksum` equals the checksum recomputed over all bytes of the record
that precede the checksum field. -/
theorem deviceSettings_valid_iff (r : DeviceSettings) (h : r.wellFormed) :
    (r.serialize.take checksumOffset = r.bytesBeforeChecksum ∧
     r.serialize.drop checksumOffset = le32 r.checksum) ∧
    (r.isValid = true ↔
      r.magic = SETTINGS_MAGIC ∧ r.version = SETTINGS_VERSION ∧
      r.checksum = settingsChecksum (r.serialize.take checksumOffset)) := by
  have hlen := bytesBeforeChecksum_length h
  have htake : r.serialize.take checksumOffset = r.bytesBeforeChecksum := by
    rw [DeviceSettings.serialize, ← hlen, List.take_left]
  have hdrop : r.serialize.drop checksumOffset = le32 r.checksum := by
    rw [DeviceSettings.serialize, ← hlen, List.drop_left]
  refine ⟨⟨htake, hdrop⟩, ?_⟩
  rw [htake]
  simp [DeviceSettings.isValid, Bool.and_eq_true, beq_iff_eq, and_assoc]

/-- A concrete well-formed record used as evaluation witness. -/
def sampleSettings : DeviceSettings :=
  { magic := SETTINGS_MAGIC
    version := SETTINGS_VERSION
    brightness := DEFAULT_BRIGHTNESS
    currentPattern := PATTERN_OFF
    powerMode := 0
    autoOff := 0
    maxEffects := MAX_EFFECTS
    color := [255, 255, 255]
    speed := 50
    ownerUserId := []
    hasOwner := false
    reserved := List.replicate 14 0
    checksum := 0 }

/-- Witness for C1 at a concrete record. -/
theorem deviceSettings_valid_iff_witness :
    (sampleSettings.serialize.take checksumOffset =
       sampleSettings.bytesBeforeChecksum ∧
     sampleSettings.serialize.drop checksumOffset =
       le32 sampleSettings.checksum) ∧
    (sampleSettings.isValid = true ↔
      sampleSettings.magic = SETTINGS_MAGIC ∧
      sampleSettings.version = SETTINGS_VERSION ∧
      sampleSettings.checksum =
        settingsChecksum (sampleSettings.serialize.take checksumOffset)) :=
  deviceSettings_valid_iff sampleSettings (by decide)

/-! ## SettingsStore (modelled from the spec) -/

/-- Modelled from the spec: the body of `SettingsStore.save` is not in the
supplied source ("recomputes and embeds magic/version/checksum").  The record
actually written carries the expected magic, the supported version, and a
checksum recomputed over all bytes preceding the checksum field. -/
def prepareForSave (r : DeviceSettings) : DeviceSettings :=
  let base := { r with magic := SETTINGS_MAGIC, version := SETTINGS_VERSION }
  { base with checksum := settingsChecksum base.bytesBeforeChecksum }

/-- Modelled from the spec: the factory-default record is not in the supplied
source ("a fresh default record", "factory defaults ... `hasOwner=false`",
magic/version/checksum recomputed).  Field defaults follow the header's
default constants. -/
def defaultSettings : DeviceSettings := prepareForSave
  { magic := 0
    version := 0
    brightness := DEFAULT_BRIGHTNESS
    currentPattern := PATTERN_OFF
    powerMode := 0
    autoOff := 0
    maxEffects := MAX_EFFECTS
    color := [0, 0, 0]
    speed := 50
    ownerUserId := []
    hasOwner := false
    reserved := List.replicate 14 0
    checksum := 0 }

/-- A record prepared for save always satisfies the validity invariant. -/
theorem prepareForSave_isValid (r : DeviceSettings) :
    (prepareForSave r).isValid = true := by
  simp [prepareForSave, DeviceSettings.isValid, DeviceSettings.bytesBeforeChecksum]

/-- Modelled from the spec: `SettingsStore.load` is not in the supplied source
("reads the persisted sector; returns the stored record if valid, else
returns and persists a fresh default record. Never fails outward ... the
event is reported to the caller as a distinct status (SettingsCorrupt)").
Input is the record currently held by flash; output is
(returned record, record persisted after the call, status). -/
def SettingsStore.load (stored : DeviceSettings) :
    DeviceSettings × DeviceSettings × Nat :=
  if stored.isValid then (stored, stored, ERROR_NONE)
  else (defaultSettings, defaultSettings, ERROR_SETTINGS_CORRUPT)

/-- C3: `load` never fails outward.  A valid stored record is returned
unchanged (status `ERROR_NONE`); any invalid stored record — any corruption
that does not yield another valid magic+checksum combination — makes `load`
return and persist the fresh default record, which has `hasOwner = false` and
satisfies the validity invariant, with the distinct status
`ERROR_SETTINGS_CORRUPT`; the status is never anything else. -/
theorem load_self_heals (stored : DeviceSettings) :
    (stored.isValid = true →
       SettingsStore.load stored = (stored, stored, ERROR_NONE)) ∧
    (stored.isValid = false →
       SettingsStore.load stored =
         (defaultSettings, defaultSettings, ERROR_SETTINGS_CORRUPT)) ∧
    defaultSettings.hasOwner = false ∧
    defaultSettings.isValid = true ∧
    ((SettingsStore.load stored).2.2 = ERROR_NONE ∨
     (SettingsStore.load stored).2.2 = ERROR_SETTINGS_CORRUPT) := by
  refine ⟨fun h => by simp [SettingsStore.load, h],
          fun h => by simp [SettingsStore.load, h],
          rfl, prepareForSave_isValid _, ?_⟩
  by_cases h : stored.isValid = true <;> simp [SettingsStore.load, h]

/-- Witness for C3: a concrete corrupted record (default record with its
magic byte wiped) self-heals to the default record with status
`ERROR_SETTINGS_CORRUPT`. -/
theorem load_self_heals_witness :
    SettingsStore.load { defaultSettings with magic := 0 } =
      (defaultSettings, defaultSettings, ERROR_SETTINGS_CORRUPT) :=
  (load_self_heals { defaultSettings with magic := 0 }).2.1 (by decide)

/-! ## SessionGuard (modelled from the spec) -/

/-- `u` is the current owner of record `r`. -/
def isOwner (r : DeviceSettings) (u : List Nat) : Prop :=
  r.hasOwner = true ∧ r.ownerUserId = u

/-- Modelled from the spec: `SessionGuard.claim` is not in the supplied source
("succeeds only when device is unclaimed (hasOwner == false); sets owner to
userId. Fails with AlreadyClaimed otherwise"). -/
def SessionGuard.claim (r : DeviceSettings) (userId : List Nat) :
    DeviceSettings × Nat :=
  if r.hasOwner then (r, ERROR_ALREADY_CLAIMED)
  else ({ r with ownerUserId := userId, hasOwner := true }, ERROR_NONE)

/-- Modelled from the spec: `SessionGuard.verify` is not in the supplied
source ("succeeds iff device is claimed and userId matches the stored owner,
or a designated bypass identity class is presented").  The bypass identity
class is left abstract as a predicate. -/
def SessionGuard.verify (bypass : List Nat → Bool) (r : DeviceSettings)
    (userId : List Nat) : Bool :=
  (r.hasOwner && r.ownerUserId == userId) || bypass userId

/-- Modelled from the spec: `SessionGuard.unclaim` is not in the supplied
source ("succeeds only if userId matches current owner (or bypass class);
clears ownership. Fails with NotOwner otherwise"). -/
def SessionGuard.unclaim (bypass : List Nat → Bool) (r : DeviceSettings)
    (userId : List Nat) : DeviceSettings × Nat :=
  if r.hasOwner && (r.ownerUserId == userId || bypass userId) then
    ({ r with ownerUserId := [], hasOwner := false }, ERROR_NONE)
  else (r, ERROR_NOT_OWNER)

/-- C4: ownership is exclusive.  `claim` succeeds exactly when the device is
unclaimed and then installs the caller as owner; while some user `a` is the
owner, a claim by any user `b` fails with `ERROR_ALREADY_CLAIMED` and leaves
the record — hence the owner `a` — unchanged; and at any point at most one
identity is the current owner. -/
theorem claim_exclusive (r : DeviceSettings) (b : List Nat) :
    ((SessionGuard.claim r b).2 = ERROR_NONE ↔ r.hasOwner = false) ∧
    (r.hasOwner = false →
       (SessionGuard.claim r b).1.hasOwner = true ∧
       (SessionGuard.claim r b).1.ownerUserId = b) ∧
    (∀ a, isOwner r a →
       (SessionGuard.claim r b).2 = ERROR_ALREADY_CLAIMED ∧
       (SessionGuard.claim r b).1 = r) ∧
    (∀ u v, isOwner r u → isOwner r v → u = v) := by
  refine ⟨?_, ?_, ?_, fun u v hu hv => hu.2.symm.trans hv.2⟩ <;>
    by_cases hO : r.hasOwner <;>
      simp [SessionGuard.claim, isOwner, hO, ERROR_NONE, ERROR_ALREADY_CLAIMED]

/-- A concrete claimed record: the default record claimed by user "A"
(byte 65). -/
def ownedByA : DeviceSettings :=
  { defaultSettings with ownerUserId := [65], hasOwner := true }

/-- Witness for C4: user "B" (byte 66) cannot claim the record owned by "A",
the record is unchanged, and claiming the unclaimed default record
succeeds. -/
theorem claim_exclusive_witness :
    (SessionGuard.claim ownedByA [66]).2 = ERROR_ALREADY_CLAIMED ∧
    (SessionGuard.claim ownedByA [66]).1 = ownedByA ∧
    (SessionGuard.claim defaultSettings [66]).2 = ERROR_NONE := by
  refine ⟨((claim_exclusive ownedByA [66]).2.2.1 [65] ⟨rfl, rfl⟩).1,
          ((claim_exclusive ownedByA [66]).2.2.1 [65] ⟨rfl, rfl⟩).2,
          (claim_exclusive defaultSettings [66]).1.mpr (by decide)⟩

/-! ## ConfigSession protocol state machine (modelled from the spec) -/

/-- Session states: `Idle` (normal operation) or `ConfigMode`. -/
inductive SessionMode where
  | idle
  | configMode
  deriving DecidableEq, Repr

/-- Modelled from the spec: the session context is not in the supplied source
— the persisted record, the protocol state, and the staged-config shadow
(present exactly while a configuration session is open). -/
structure SessionState where
  persisted : DeviceSettings
  mode : SessionMode
  shadow : Option DeviceSettings
  deriving DecidableEq, Repr

/-- Outcome of the underlying flash write attempted by
`SettingsStore.save`; the medium may reject the write. -/
inductive SaveResult where
  | ok
  | flashWriteFailed
  deriving DecidableEq, Repr

/-- Config-parameter fields with a declared range in the spec. -/
inductive ConfigField where
  | brightness
  | speed
  | pattern
  deriving DecidableEq, Repr

/-- Modelled from the spec: the `ConfigUpdate` range validation is not in the
supplied source ("brightness 0-255, speed 0-100, pattern id < MAX_EFFECTS"). -/
def validValue : ConfigField → Nat → Bool
  | ConfigField.brightness, v => decide (v ≤ MAX_BRIGHTNESS)
  | ConfigField.speed, v => decide (v ≤ 100)
  | ConfigField.pattern, v => decide (v < MAX_EFFECTS)

/-- In-place application of a validated `ConfigUpdate` to a record. -/
def applyUpdate (r : DeviceSettings) : ConfigField → Nat → DeviceSettings
  | ConfigField.brightness, v => { r with brightness := v }
  | ConfigField.speed, v => { r with speed := v }
  | ConfigField.pattern, v => { r with currentPattern := v }

/-- The decoded commands of the numeric config-mode protocol (analytics
handshake aside). -/
inductive ProtocolCmd where
  | status
  | enterConfig (userId : List Nat)
  | configUpdate (f : ConfigField) (v : Nat)
  | commitConfig
  | exitConfig
  | claimDevice (userId : List Nat)
  | verifyOwnership (userId : List Nat)
  | unclaimDevice (userId : List Nat)
  deriving DecidableEq, Repr

/-- Modelled from the spec: the command dispatcher is not in the supplied
source (section 4.3 "Transitions and guarantees").  `bypass` is the abstract
developer/test identity class, `saveRes` the outcome of the flash write a
commit would attempt.  Returns the new session state and the response/error
code byte. -/
def handleCmd (bypass : List Nat → Bool) (saveRes : SaveResult)
    (st : SessionState) : ProtocolCmd → SessionState × Nat
  | ProtocolCmd.status => (st, RESPONSE_ACK_SUCCESS)
  | ProtocolCmd.enterConfig u =>
      match st.mode with
      | SessionMode.configMode => (st, ERROR_ALREADY_IN_CONFIG_MODE)
      | SessionMode.idle =>
          if SessionGuard.verify bypass st.persisted u then
            ({ st with mode := SessionMode.configMode,
                       shadow := some st.persisted },
             RESPONSE_ACK_CONFIG_MODE)
          else (st, ERROR_NOT_OWNER)
  | ProtocolCmd.configUpdate f v =>
      match st.mode, st.shadow with
      | SessionMode.configMode, some sh =>
          if validValue f v then
            ({ st with shadow := some (applyUpdate sh f v) },
             RESPONSE_ACK_SUCCESS)
          else (st, ERROR_OUT_OF_RANGE)
      | _, _ => (st, ERROR_NOT_IN_CONFIG_MODE)
  | ProtocolCmd.commitConfig =>
      match st.mode, st.shadow with
      | SessionMode.configMode, some sh =>
          match saveRes with
          | SaveResult.ok =>
              ({ persisted := prepareForSave sh, mode := SessionMode.idle,
                 shadow := none },
               RESPONSE_ACK_COMMIT)
          | SaveResult.flashWriteFailed => (st, ERROR_FLASH_WRITE_FAILED)
      | _, _ => (st, ERROR_NOT_IN_CONFIG_MODE)
  | ProtocolCmd.exitConfig =>
      match st.mode with
      | SessionMode.configMode =>
          ({ st with mode := SessionMode.idle, shadow := none },
           RESPONSE_ACK_SUCCESS)
      | SessionMode.idle => (st, ERROR_NOT_IN_CONFIG_MODE)
  | ProtocolCmd.claimDevice u =>
      ({ st with persisted := (SessionGuard.claim st.persisted u).1 },
       (SessionGuard.claim st.persisted u).2)
  | ProtocolCmd.verifyOwnership u =>
      (st, if SessionGuard.verify bypass st.persisted u then ERROR_NONE
           else ERROR_NOT_OWNER)
  | ProtocolCmd.unclaimDevice u =>
      ({ st with persisted := (SessionGuard.unclaim bypass st.persisted u).1 },
       (SessionGuard.unclaim bypass st.persisted u).2)

/-- C2: commit atomicity under flash failure.  From any session in
`ConfigMode` with persisted record `p` and shadow `s`, if the save attempted
by `CommitConfig` fails, then afterwards the persisted record is still `p`,
the session is still in `ConfigMode`, the shadow is still `s`, and the caller
receives `ERROR_FLASH_WRITE_FAILED`. -/
theorem commit_atomic_on_flash_failure (bypass : List Nat → Bool)
    (p s : DeviceSettings) :
    (handleCmd bypass SaveResult.flashWriteFailed
        ⟨p, SessionMode.configMode, some s⟩ ProtocolCmd.commitConfig).1 =
      ⟨p, SessionMode.configMode, some s⟩ ∧
    (handleCmd bypass SaveResult.flashWriteFailed
        ⟨p, SessionMode.configMode, some s⟩ ProtocolCmd.commitConfig).2 =
      ERROR_FLASH_WRITE_FAILED :=
  ⟨rfl, rfl⟩

/-- C6: `ConfigUpdate` validation in `ConfigMode`.  An out-of-range value is
rejected with `ERROR_OUT_OF_RANGE` and the whole state — shadow included —
is unchanged; an in-range value is applied to the shadow only (persisted
record and mode untouched); and every defined pattern constant
`PATTERN_OFF .. PATTERN_STROBE` passes the `pattern id < MAX_EFFECTS`
check. -/
theorem configUpdate_validation (bypass : List Nat → Bool) (sv : SaveResult)
    (p sh : DeviceSettings) (f : ConfigField) (v : Nat) :
    (validValue f v = false →
       handleCmd bypass sv ⟨p, SessionMode.configMode, some sh⟩
           (ProtocolCmd.configUpdate f v) =
         (⟨p, SessionMode.configMode, some sh⟩, ERROR_OUT_OF_RANGE)) ∧
    (validValue f v = true →
       handleCmd bypass sv ⟨p, SessionMode.configMode, some sh⟩
           (ProtocolCmd.configUpdate f v) =
         (⟨p, SessionMode.configMode, some (applyUpdate sh f v)⟩,
          RESPONSE_ACK_SUCCESS)) ∧
    (∀ pid ∈ [PATTERN_OFF, PATTERN_SOLID_WHITE, PATTERN_RAINBOW,
              PATTERN_PULSE, PATTERN_FADE, PATTERN_CHASE, PATTERN_TWINKLE,
              PATTERN_WAVE, PATTERN_BREATH, PATTERN_STROBE],
       validValue ConfigField.pattern pid = true) := by
  refine ⟨fun hv => ?_, fun hv => ?_, by decide⟩ <;>
    simp [handleCmd, hv]

/-- Witness for C6: brightness 300 is rejected leaving the state unchanged;
brightness 200 is staged into the shadow. -/
theorem configUpdate_validation_witness :
    handleCmd (fun _ => false) SaveResult.ok
        ⟨defaultSettings, SessionMode.configMode, some defaultSettings⟩
        (ProtocolCmd.configUpdate ConfigField.brightness 300) =
      (⟨defaultSettings, SessionMode.configMode, some defaultSettings⟩,
       ERROR_OUT_OF_RANGE) ∧
    handleCmd (fun _ => false) SaveResult.ok
        ⟨defaultSettings, SessionMode.configMode, some defaultSettings⟩
        (ProtocolCmd.configUpdate ConfigField.brightness 200) =
      (⟨defaultSettings, SessionMode.configMode,
        some (applyUpdate defaultSettings ConfigField.brightness 200)⟩,
       RESPONSE_ACK_SUCCESS) :=
  ⟨(configUpdate_validation (fun _ => false) SaveResult.ok defaultSettings
      defaultSettings ConfigField.brightness 300).1 (by decide),
   (configUpdate_validation (fun _ => false) SaveResult.ok defaultSettings
      defaultSettings ConfigField.brightness 200).2.1 (by decide)⟩

/-! ## Owner-consistency invariant -/

/-- The consistency invariant on a record: `hasOwner` is `true` exactly when
`ownerUserId` is non-empty. -/
def DeviceSettings.ownerConsistent (r : DeviceSettings) : Prop :=
  r.hasOwner = true ↔ r.ownerUserId ≠ []

/-- The invariant lifted to a session state: it holds for the persisted
record and for the shadow whenever one is present. -/
abbrev SessionState.ownerConsistent (st : SessionState) : Prop :=
  st.persisted.ownerConsistent ∧
  ∀ sh, st.shadow = some sh → sh.ownerConsistent

/-- Command well-formedness: a claim carries a non-empty user identity
(an identity is a non-empty string). -/
abbrev ProtocolCmd.wellFormed : ProtocolCmd → Prop
  | ProtocolCmd.claimDevice u => u ≠ []
  | _ => True

/-- C5: every operation of the protocol preserves the consistency invariant
`hasOwner == (ownerUserId != empty)` on both the persisted record and the
shadow. -/
theorem ops_preserve_owner_consistency (bypass : List Nat → Bool)
    (sv : SaveResult) (st : SessionState) (c : ProtocolCmd)
    (hst : st.ownerConsistent) (hc : c.wellFormed) :
    (handleCmd bypass sv st c).1.ownerConsistent := by
  obtain ⟨p, m, sh⟩ := st
  obtain ⟨hp, hsh⟩ := hst
  cases c with
  | status => exact ⟨hp, hsh⟩
  | enterConfig u =>
      cases m with
      | configMode => exact ⟨hp, hsh⟩
      | idle =>
          simp only [handleCmd]
          split
          · exact ⟨hp, fun s hs => by injection hs with h; exact h ▸ hp⟩
          · exact ⟨hp, hsh⟩
  | configUpdate f v =>
      cases m with
      | idle => exact ⟨hp, hsh⟩
      | configMode =>
          cases sh with
          | none => exact ⟨hp, hsh⟩
          | some s0 =>
              have hs0 := hsh s0 rfl
              simp only [handleCmd]
              split
              · refine ⟨hp, fun s hs => ?_⟩
                injection hs with h
                subst h
                cases f <;> exact hs0
              · exact ⟨hp, hsh⟩
  | commitConfig =>
      cases m with
      | idle => exact ⟨hp, hsh⟩
      | configMode =>
          cases sh with
          | none => exact ⟨hp, hsh⟩
          | some s0 =>
              cases sv with
              | flashWriteFailed => exact ⟨hp, hsh⟩
              | ok =>
                  exact ⟨hsh s0 rfl, fun s hs => Option.noConfusion hs⟩
  | exitConfig =>
      cases m with
      | idle => exact ⟨hp, hsh⟩
      | configMode => exact ⟨hp, fun s hs => Option.noConfusion hs⟩
  | claimDevice u =>
      refine ⟨?_, hsh⟩
      cases hO : p.hasOwner with
      | true => simpa [handleCmd, SessionGuard.claim, hO] using hp
      | false =>
          simp [handleCmd, SessionGuard.claim, hO,
            DeviceSettings.ownerConsistent]
          exact hc
  | verifyOwnership u => exact ⟨hp, hsh⟩
  | unclaimDevice u =>
      refine ⟨?_, hsh⟩
      cases hO : (p.hasOwner && (p.ownerUserId == u || bypass u)) with
      | false => simpa [handleCmd, SessionGuard.unclaim, hO] using hp
      | true =>
          simp [handleCmd, SessionGuard.unclaim, hO,
            DeviceSettings.ownerConsistent]

/-- Witness for C5: claiming the unclaimed default record with user "A"
yields a state that still satisfies the invariant. -/
theorem ops_preserve_owner_consistency_witness :
    SessionState.ownerConsistent
      (handleCmd (fun _ => false) SaveResult.ok
        ⟨defaultSettings, SessionMode.idle, none⟩
        (ProtocolCmd.claimDevice [65])).1 :=
  ops_preserve_owner_consistency (fun _ => false) SaveResult.ok
    ⟨defaultSettings, SessionMode.idle, none⟩ (ProtocolCmd.claimDevice [65])
    ⟨by unfold DeviceSettings.ownerConsistent; decide,
     fun s hs => Option.noConfusion hs⟩
    (List.cons_ne_nil 65 [])

/-- C10: the out-of-range rejection branch for brightness is unreachable —
every representable brightness byte passes the `0-MAX_BRIGHTNESS` check —
whereas for speed the rejection branch is reachable by an 8-bit value, and
`DEFAULT_BRIGHTNESS` is itself within `0-MAX_BRIGHTNESS`. -/
theorem brightness_rejection_unreachable :
    (∀ v, v < 256 → validValue ConfigField.brightness v = true) ∧
    (∃ v, v < 256 ∧ validValue ConfigField.speed v = false) ∧
    DEFAULT_BRIGHTNESS ≤ MAX_BRIGHTNESS := by
  refine ⟨fun v hv => ?_, ⟨101, by decide, by decide⟩, by decide⟩
  simp [validValue, MAX_BRIGHTNESS]
  omega

/-- Witness for C10: the extreme byte 255 passes the brightness check, and
the default brightness is in range. -/
theorem brightness_rejection_unreachable_witness :
    validValue ConfigField.brightness 255 = true ∧
    DEFAULT_BRIGHTNESS ≤ MAX_BRIGHTNESS :=
  ⟨brightness_rejection_unreachable.1 255 (by decide),
   brightness_rejection_unreachable.2.2⟩
